import Mathlib

/-!
Shallow embedding of the Canticle dependency-graph engine
(`src/canticles/depwalker.go`, the source-consolidation resolver and the
package metadata helpers) together with proofs about its traversal,
snapshot and resolution behaviour.

Go errors are modelled as an inductive `GoErr`: the sentinel `ErrorSkip`
value is its own constructor (Go compares error interface values by
identity, so an error that merely carries the same message, or wraps the
sentinel, is a different value), `mk` models `errors.New`/`fmt.Errorf`
without wrapping, `wrapped` models `fmt.Errorf` with a wrapped inner
error, and `pkgErr` models the concrete `*PackageError` type.
-/

namespace Canticles

inductive GoErr where
  | errorSkip : GoErr
  | mk : String → GoErr
  | wrapped : String → GoErr → GoErr
  | pkgErr : String → GoErr
deriving DecidableEq, Repr

/-- The `Error()` method: the message a Go error renders to. -/
def GoErr.errString : GoErr → String
  | .errorSkip => "skip this dep"
  | .mk m => m
  | .wrapped m _ => m
  | .pkgErr m => m

/-- Lexicographic order on character lists (Go compares strings
byte-wise; on UTF-8 this agrees with code-point order). -/
def charListLe : List Char → List Char → Bool
  | [], _ => true
  | _ :: _, [] => false
  | a :: as, b :: bs =>
    if a.toNat < b.toNat then true
    else if a.toNat = b.toNat then charListLe as bs
    else false

/-- `a <= b` on strings, via the underlying character lists. -/
def strLeB (a b : String) : Bool := charListLe a.data b.data

/-- `strings.HasPrefix pre s`, via the underlying character lists. -/
def strPrefixB (pre s : String) : Bool := pre.data.isPrefixOf s.data

/-- `IsNoBuildable` from the package helpers: true when the
`PackageError`'s message starts with "no buildable Go". -/
def IsNoBuildable (peErr : String) : Bool :=
  strPrefixB "no buildable Go" peErr

/-- The combined check `if e, ok := err.(*PackageError); ok` plus
`e.IsNoBuildable()` used by `SavePackageDeps`: only a `*PackageError`
whose message has the "no buildable Go" prefix qualifies. -/
def isNoBuildableErr : GoErr → Bool
  | .pkgErr m => IsNoBuildable m
  | _ => false

/-- Modelled from the spec: the `StringSet` primitive (its file is not
under src/); §3 describes it as a set of strings with insert-if-absent. -/
def addToSet (s : List String) (x : String) : List String :=
  if s.contains x then s else s ++ [x]

/-- Modelled from the spec: set union used when merging dependency
records (§3: merging is a union on the sets, never a replacement). -/
def unionSet (a b : List String) : List String :=
  b.foldl addToSet a

/-- One discovered package (§3 Dependency): import path, direct imports,
reverse-edge provenance, and an optional recorded error. -/
structure Dependency where
  ImportPath : String
  Imports : List String
  ImportedFrom : List String
  Err : Option GoErr
deriving DecidableEq, Repr

/-- `NewDependency`: a fresh record with empty sets and no error. -/
def NewDependency (importPath : String) : Dependency :=
  { ImportPath := importPath, Imports := [], ImportedFrom := [], Err := none }

/-- Modelled from the spec: `Dependencies` (its file deps.go is not under
src/) is a mapping from import path to `Dependency`; modelled as an
association list keyed by `ImportPath`. -/
abbrev Dependencies := List Dependency

def NewDependencies : Dependencies := []

/-- Modelled from the spec: lookup by import path (nil/absent if unknown). -/
def depLookup (deps : Dependencies) (path : String) : Option Dependency :=
  deps.find? (fun d => d.ImportPath == path)

/-- Modelled from the spec: rediscovery merges into the existing record
(union on `Imports` and `ImportedFrom`) rather than replacing it. -/
def mergeDep (old new : Dependency) : Dependency :=
  { ImportPath := old.ImportPath
    Imports := unionSet old.Imports new.Imports
    ImportedFrom := unionSet old.ImportedFrom new.ImportedFrom
    Err := match new.Err with | some e => some e | none => old.Err }

/-- Modelled from the spec: `Dependencies.AddDependency` — merge if the
path already exists, otherwise insert. -/
def AddDependency (deps : Dependencies) (dep : Dependency) : Dependencies :=
  match depLookup deps dep.ImportPath with
  | some _ => deps.map (fun d => if d.ImportPath == dep.ImportPath then mergeDep d dep else d)
  | none => deps ++ [dep]

/-- Modelled from the spec: bulk add, applying the same merge rule per
element. -/
def AddDependencies (deps : Dependencies) (more : Dependencies) : Dependencies :=
  more.foldl AddDependency deps

/-- Modelled from the spec: `PackageSource` (workspace path mapping, §6,
not under src/) maps an import path to its on-disk location under the
workspace root's src directory. -/
def PackageSource (gopath pkg : String) : String :=
  if pkg = "" then gopath ++ "/src" else gopath ++ "/src/" ++ pkg

/-- Modelled from the spec: `PathIsChild` (path containment test, §6,
not under src/): the child lies strictly below the parent path. -/
def PathIsChild (parent child : String) : Bool :=
  strPrefixB (parent ++ "/") child

/-! ## The graph walker (`DependencyWalker.TraverseDependencies`)

The loop is embedded with explicit state (queue, visited set) and a fuel
parameter standing in for Go's unbounded `for`; the result records the
trace of nodes passed to the handler, the trace of nodes passed to the
reader, and the final outcome. `sort.Strings` is embedded as insertion
sort (all sorts agree on strings). -/

def insertSorted (s : String) : List String → List String
  | [] => [s]
  | x :: xs => if strLeB s x then s :: x :: xs else x :: insertSorted s xs

def sortStrings : List String → List String
  | [] => []
  | x :: xs => insertSorted x (sortStrings xs)

inductive WalkOutcome where
  | ok : WalkOutcome
  | err : GoErr → WalkOutcome
  | outOfFuel : WalkOutcome
deriving DecidableEq, Repr

structure WalkRes where
  handled : List String
  reads : List String
  outcome : WalkOutcome
deriving DecidableEq, Repr

/-- The walker loop of `TraverseDependencies` (depwalker.go lines 48-78):
dequeue `p`, mark it visited, call the handler (`ErrorSkip` by identity
means continue without reading; any other non-nil error aborts), read and
sort children, enqueue those not in the visited map, and loop.  `pkg` is
the function's start argument, used — as in the source — in the
read-error message. -/
def traverseLoop (handleDep : String → Option GoErr)
    (readPackage : String → Except GoErr (List String)) (pkg : String) :
    Nat → List String → List String → WalkRes
  | _, [], _ => { handled := [], reads := [], outcome := .ok }
  | 0, _ :: _, _ => { handled := [], reads := [], outcome := .outOfFuel }
  | Nat.succ fuel, p :: rest, visited =>
    let visited1 := addToSet visited p
    match handleDep p with
    | some GoErr.errorSkip =>
      let r := traverseLoop handleDep readPackage pkg fuel rest visited1
      { handled := p :: r.handled, reads := r.reads, outcome := r.outcome }
    | some e => { handled := [p], reads := [], outcome := .err e }
    | none =>
      match readPackage p with
      | .error e =>
        { handled := [p], reads := [p]
          outcome := .err (GoErr.mk ("cant read deps of package " ++ pkg
            ++ " with error " ++ e.errString)) }
      | .ok children =>
        let cs := sortStrings children
        let enq := cs.filter (fun c => !(visited1.contains c))
        let r := traverseLoop handleDep readPackage pkg fuel (rest ++ enq) visited1
        { handled := p :: r.handled, reads := p :: r.reads, outcome := r.outcome }

/-- `TraverseDependencies pkg`: seed the queue with `pkg` and run the
loop from a fresh walker (empty visited map). -/
def TraverseDependencies (handleDep : String → Option GoErr)
    (readPackage : String → Except GoErr (List String))
    (fuel : Nat) (pkg : String) : WalkRes :=
  traverseLoop handleDep readPackage pkg fuel [pkg] []

/-! ## The snapshot driver (`DependencySaver.SavePackageDeps`)

External calls (`PackageName`, `os.Stat`, the package reader `ds.read`)
are inputs of the embedding, carried in a context record.  `os.Stat`'s
three relevant outcomes are an inductive: success (with the IsDir bit),
a does-not-exist error, or any other error. -/

inductive StatRes where
  | ok : Bool → StatRes
  | notExist : StatRes
  | errOther : String → StatRes
deriving DecidableEq, Repr

structure SaverCtx where
  gopath : String
  root : String
  packageName : String → Except GoErr String
  stat : String → StatRes
  read : String → Dependencies × Option GoErr

/-- `SavePackageDeps` (depwalker.go lines 235-294) over explicit
`Dependencies` state: derive the package name (failure returns a plain
error, recording nothing), run the stat switch (any stat failure records
a placeholder with the error and returns `ErrorSkip`), no-op on the bare
src directory, then read the package deps: zero deps plus a
"no buildable Go" `PackageError` records nothing and succeeds, zero deps
plus any other error records a placeholder with a wrapped error and
succeeds, and otherwise provenance and imports are merged in. -/
def SavePackageDeps (ds : SaverCtx) (deps : Dependencies) (path : String) :
    Option GoErr × Dependencies :=
  match ds.packageName path with
  | .error _ => (some (GoErr.mk ("Error getting package name for path " ++ path)), deps)
  | .ok pkg =>
    let statErr : Option GoErr :=
      match ds.stat path with
      | .ok false => some (GoErr.mk ("cant save deps for path " ++ path
          ++ " is a file not a directory"))
      | .notExist => some (GoErr.mk ("cant save deps for path " ++ path
          ++ " could not be found on disk"))
      | .errOther m => some (GoErr.mk ("cant save deps for path " ++ path
          ++ " due to " ++ m))
      | .ok true => none
    match statErr with
    | some e =>
      (some GoErr.errorSkip, AddDependency deps { NewDependency pkg with Err := some e })
    | none =>
      if path = PackageSource ds.gopath "" then (none, deps)
      else
        match ds.read path with
        | ([], some e) =>
          if isNoBuildableErr e then (none, deps)
          else
            (none, AddDependency deps { NewDependency pkg with
              Err := some (GoErr.mk ("cant read deps for package " ++ pkg
                ++ " " ++ e.errString)) })
        | (pkgDeps, _) =>
          let pkgDeps1 := pkgDeps.map (fun d =>
            { d with ImportedFrom := addToSet d.ImportedFrom pkg })
          let deps1 := AddDependencies deps pkgDeps1
          let dep := { NewDependency pkg with
            Imports := pkgDeps1.foldl (fun acc d => addToSet acc d.ImportPath) [] }
          (none, AddDependency deps1 dep)

/-! ## The source-consolidation resolver (`SourcesResolver.ResolveSources`)

The VCS capability is a record of the query results the resolver uses;
`ResolveRepo` is an input function of the embedding. -/

structure VCS where
  GetRoot : String
  GetBranch : Except GoErr String
  GetRev : Except GoErr String
  GetSource : Except GoErr String
  Create : Option GoErr

structure DependencySource where
  Revisions : List String
  OnDiskRevision : String
  Sources : List String
  OnDiskSource : String
  Deps : Dependencies
  Root : String
  Err : Option GoErr
deriving DecidableEq, Repr

def NewDependencySource (root : String) : DependencySource :=
  { Revisions := [], OnDiskRevision := "", Sources := [], OnDiskSource := ""
    Deps := NewDependencies, Root := root, Err := none }

/-- `DependencySources.DepSource`: the first source whose root equals or
contains the dependency's import path. -/
def DepSource (sources : List DependencySource) (dep : Dependency) :
    Option DependencySource :=
  sources.find? (fun source =>
    source.Root == dep.ImportPath || PathIsChild source.Root dep.ImportPath)

/-- The linear scan of `DepSource`, returning the index of the first
match. -/
def depSourceIdxGo (dep : Dependency) :
    List DependencySource → Nat → Option Nat
  | [], _ => none
  | source :: rest, i =>
    if source.Root == dep.ImportPath || PathIsChild source.Root dep.ImportPath
    then some i else depSourceIdxGo dep rest (i + 1)

/-- Index form of `DepSource`, used to model in-place mutation of the
found source through its pointer. -/
def depSourceIdx (sources : List DependencySource) (dep : Dependency) :
    Option Nat :=
  depSourceIdxGo dep sources 0

/-- `source.Deps.AddDependency(dep)` on the source at index `i`. -/
def addDepAt (sources : List DependencySource) (i : Nat) (dep : Dependency) :
    List DependencySource :=
  match sources.get? i with
  | some s => sources.set i { s with Deps := AddDependency s.Deps dep }
  | none => sources

structure SourcesResolver where
  RootPath : String
  Gopath : String
  Resolver : String → Except GoErr VCS
  Branches : Bool

/-- The "vcs is at our save level" check of ResolveSources: the
repository root's on-disk location equals or contains the save root. -/
def atSaveLevel (sr : SourcesResolver) (root : String) : Bool :=
  let rootSrc := PackageSource sr.Gopath root
  rootSrc == sr.RootPath || PathIsChild rootSrc sr.RootPath

/-- The revision computation of ResolveSources: in branch mode take the
branch, falling back to the exact revision when the branch query fails;
otherwise take the exact revision directly. -/
def vcsRevision (sr : SourcesResolver) (vcs : VCS) : Except GoErr String :=
  if sr.Branches then
    match vcs.GetBranch with
    | .ok b => .ok b
    | .error _ => vcs.GetRev
  else vcs.GetRev

/-- The loop body of `ResolveSources` over the remaining dependency list
and the sources accumulated so far.  An existing owning source absorbs
the dep; a `ResolveRepo` failure skips the dep; a repository at the save
level is skipped; failure of the revision or remote-source query aborts
the whole pass with a wrapped error; otherwise a new source is recorded. -/
def resolveSourcesLoop (sr : SourcesResolver) :
    List Dependency → List DependencySource →
    Except GoErr (List DependencySource)
  | [], sources => .ok sources
  | dep :: rest, sources =>
    match depSourceIdx sources dep with
    | some i => resolveSourcesLoop sr rest (addDepAt sources i dep)
    | none =>
      match sr.Resolver dep.ImportPath with
      | .error _ => resolveSourcesLoop sr rest sources
      | .ok vcs =>
        let root := vcs.GetRoot
        if atSaveLevel sr root then resolveSourcesLoop sr rest sources
        else
          match vcsRevision sr vcs with
          | .error e => .error (GoErr.mk ("cant get revision from vcs at "
              ++ root ++ " " ++ e.errString))
          | .ok rev =>
            match vcs.GetSource with
            | .error e => .error (GoErr.mk ("cant get vcs source from vcs at "
                ++ root ++ " " ++ e.errString))
            | .ok vcsSource =>
              let source := { NewDependencySource root with
                Revisions := addToSet [] rev
                OnDiskRevision := rev
                Sources := addToSet [] vcsSource
                OnDiskSource := vcsSource
                Deps := AddDependency NewDependencies dep }
              resolveSourcesLoop sr rest (sources ++ [source])

def ResolveSources (sr : SourcesResolver) (deps : List Dependency) :
    Except GoErr (List DependencySource) :=
  resolveSourcesLoop sr deps []

/-! ## The fetch/update driver (`DependencyLoader.FetchUpdatePackage`)

The result is instrumented with whether a fetch was performed, so the
claims about "no fetch is attempted" are statable. -/

structure CanticleDependency where
  Root : String
deriving DecidableEq, Repr

structure LoaderCtx where
  gopath : String
  cdeps : List CanticleDependency
  resolver : String → Option CanticleDependency → Except GoErr VCS
  readDeps : String → Except GoErr Dependencies
  stat : String → StatRes

/-- `cdepForPkg`: the first declared dependency whose root contains the
package. -/
def cdepForPkg (dl : LoaderCtx) (pkg : String) : Option CanticleDependency :=
  dl.cdeps.find? (fun dep => PathIsChild dep.Root pkg)

/-- `fetchPackage`: run the VCS create operation, wrapping its error. -/
def fetchPackage (vcs : VCS) : Option GoErr :=
  match vcs.Create with
  | some e => some (GoErr.mk ("failed to fetch because " ++ e.errString))
  | none => none

structure FetchRes where
  result : Option GoErr
  fetched : Bool
  deps : Dependencies
deriving DecidableEq, Repr

/-- The tail of `FetchUpdatePackage` from "Load all the deps for this
file directly" on (depwalker.go lines 145-165): read the deps at `path`,
record provenance, and merge the package's own record. -/
def loadPackageDeps (dl : LoaderCtx) (deps : Dependencies)
    (pkg path : String) (fetched : Bool) : FetchRes :=
  match dl.readDeps path with
  | .error e =>
    { result := some (GoErr.mk ("package " ++ pkg ++ " couldn't read deps "
        ++ e.errString))
      fetched := fetched, deps := deps }
  | .ok pkgDeps =>
    let pkgDeps1 := pkgDeps.map (fun d =>
      { d with ImportedFrom := addToSet d.ImportedFrom pkg })
    let deps1 := AddDependencies deps pkgDeps1
    let dep := { NewDependency pkg with
      Imports := pkgDeps1.foldl (fun acc d => addToSet acc d.ImportPath) [] }
    { result := none, fetched := fetched, deps := AddDependency deps1 dep }

/-- `FetchUpdatePackage` (depwalker.go lines 113-166): stat the on-disk
path.  A does-not-exist error clears `ondisk` and triggers resolve+fetch;
any other stat error builds an error value that is discarded (no
`return`), leaving `ondisk` true; a file where a directory is expected
returns an error.  When on disk (or after a successful fetch) the deps
are read and recorded. -/
def FetchUpdatePackage (dl : LoaderCtx) (deps : Dependencies) (pkg : String) :
    FetchRes :=
  let path := PackageSource dl.gopath pkg
  match dl.stat path with
  | .ok false =>
    { result := some (GoErr.mk ("cant fetch pkg for path " ++ path
        ++ " is a file not a directory"))
      fetched := false, deps := deps }
  | .ok true => loadPackageDeps dl deps pkg path false
  | .errOther _ => loadPackageDeps dl deps pkg path false
  | .notExist =>
    match dl.resolver pkg (cdepForPkg dl pkg) with
    | .error e =>
      { result := some (GoErr.mk (pkg ++ " version control " ++ e.errString))
        fetched := false, deps := deps }
    | .ok vcs =>
      match fetchPackage vcs with
      | some e =>
        { result := some (GoErr.mk ("cant fetch package " ++ pkg ++ " "
            ++ e.errString))
          fetched := false, deps := deps }
      | none => loadPackageDeps dl deps pkg path true

/-! ## Theorems about the graph walker -/

/-- Every node passed to the reader had a handler result of `none`: the
reader is only ever called after the handler returned nil. -/
theorem reads_handler_none (handleDep : String → Option GoErr)
    (readPackage : String → Except GoErr (List String)) (pkg : String) :
    ∀ (fuel : Nat) (queue visited : List String) (q : String),
      q ∈ (traverseLoop handleDep readPackage pkg fuel queue visited).reads →
      handleDep q = none := by
  intro fuel
  induction fuel with
  | zero =>
    intro queue visited q hq
    cases queue with
    | nil => simp [traverseLoop] at hq
    | cons p rest => simp [traverseLoop] at hq
  | succ fuel ih =>
    intro queue visited q hq
    cases queue with
    | nil => simp [traverseLoop] at hq
    | cons p rest =>
      rw [traverseLoop] at hq
      cases hh : handleDep p with
      | none =>
        rw [hh] at hq
        cases hr : readPackage p with
        | error e =>
          rw [hr] at hq
          simp at hq
          subst hq
          exact hh
        | ok children =>
          rw [hr] at hq
          simp at hq
          rcases hq with hq | hq
          · subst hq; exact hh
          · exact ih _ _ _ hq
      | some e =>
        rw [hh] at hq
        cases e with
        | errorSkip =>
          simp at hq
          exact ih _ _ _ hq
        | mk m => simp at hq
        | wrapped m inner => simp at hq
        | pkgErr m => simp at hq

/-- The walker fixture for the C1 scenario: `A` imports `B` and `C`,
`B` imports `C`, `C` imports nothing; the handler never fails. -/
def c1Handle : String → Option GoErr := fun _ => none

def c1Read : String → Except GoErr (List String) := fun p =>
  if p == "A" then .ok ["B", "C"] else if p == "B" then .ok ["C"] else .ok []

/-- C1: the claim — that the handler is invoked at most once per node,
and in particular once each for `A`, `B`, `C` in the diamond where `A`
imports `B` and `C` and `B` imports `C` — fails on the code: the visited
set is checked only at enqueue time and never at dequeue time, so `C`,
enqueued by `A` and enqueued again while handling `B` (it is not yet
visited), is dequeued and handled twice.  The traversal completes with
handler trace `[A, B, C, C]`. -/
theorem traverse_diamond_handles_node_twice :
    (TraverseDependencies c1Handle c1Read 10 "A").handled = ["A", "B", "C", "C"] ∧
    (TraverseDependencies c1Handle c1Read 10 "A").outcome = .ok ∧
    ((TraverseDependencies c1Handle c1Read 10 "A").handled.count "C") = 2 := by
  decide

/-- The walker fixture for the C3 scenario: `A` reads to `[B]`, and
reading `B`'s children fails with the error `boom`. -/
def c3Handle : String → Option GoErr := fun _ => none

def c3Read : String → Except GoErr (List String) := fun p =>
  if p == "A" then .ok ["B"] else .error (GoErr.mk "boom")

/-- C3: the claim — that a reader failure aborts with a wrapped error
identifying the node whose children could not be read — fails on the
code: the error message is built from `pkg`, the traversal's start
argument, not from `p`, the dequeued node whose read failed.  Here the
failing node is `B` (the read trace ends at `B`) but the returned error
names `A`. -/
theorem traverse_read_error_names_start_node :
    (TraverseDependencies c3Handle c3Read 10 "A").outcome =
      .err (GoErr.mk "cant read deps of package A with error boom") ∧
    (TraverseDependencies c3Handle c3Read 10 "A").reads = ["A", "B"] := by
  decide

/-- C7: when a node's handler returns the skip signal, the walker never
passes that node to the reader (so none of its children are enqueued
from it), and the step on that node continues the traversal with the
remaining queue. -/
theorem skip_means_children_never_read (handleDep : String → Option GoErr)
    (readPackage : String → Except GoErr (List String)) (pkg p : String)
    (h : handleDep p = some GoErr.errorSkip) :
    (∀ fuel queue visited,
      p ∉ (traverseLoop handleDep readPackage pkg fuel queue visited).reads) ∧
    (∀ fuel rest visited,
      traverseLoop handleDep readPackage pkg (fuel + 1) (p :: rest) visited =
        { handled := p :: (traverseLoop handleDep readPackage pkg fuel rest
            (addToSet visited p)).handled
          reads := (traverseLoop handleDep readPackage pkg fuel rest
            (addToSet visited p)).reads
          outcome := (traverseLoop handleDep readPackage pkg fuel rest
            (addToSet visited p)).outcome }) := by
  constructor
  · intro fuel queue visited hmem
    have := reads_handler_none handleDep readPackage pkg fuel queue visited p hmem
    rw [h] at this
    exact Option.noConfusion this
  · intro fuel rest visited
    rw [traverseLoop, h]

def c7Handle : String → Option GoErr := fun q =>
  if q == "S" then some GoErr.errorSkip else none

def c7Read : String → Except GoErr (List String) := fun _ => .ok ["S", "T"]

/-- Witness for C7 at a concrete input. -/
theorem skip_means_children_never_read_witness :
    c7Handle "S" = some GoErr.errorSkip ∧
    "S" ∉ (traverseLoop c7Handle c7Read "S" 5 ["S"] []).reads :=
  ⟨rfl, (skip_means_children_never_read c7Handle c7Read "S" "S" rfl).1 5 ["S"] []⟩

/-- C10: the walker recognizes the skip signal only by identity with the
`ErrorSkip` sentinel value: any other error value returned by the
handler — including a distinct error carrying the very same message and
an error wrapping the sentinel — aborts the traversal, which returns
that error with no read performed. -/
theorem skip_recognized_only_by_identity (handleDep : String → Option GoErr)
    (readPackage : String → Except GoErr (List String)) (pkg p : String)
    (e : GoErr) (hne : e ≠ GoErr.errorSkip) (h : handleDep p = some e) :
    ∀ fuel rest visited,
      traverseLoop handleDep readPackage pkg (fuel + 1) (p :: rest) visited =
        { handled := [p], reads := [], outcome := .err e } := by
  intro fuel rest visited
  rw [traverseLoop, h]
  cases e with
  | errorSkip => exact absurd rfl hne
  | mk m => rfl
  | wrapped m inner => rfl
  | pkgErr m => rfl

def c10Handle : String → Option GoErr := fun q =>
  if q == "P" then some (GoErr.wrapped "skip this dep" GoErr.errorSkip) else none

def c10Read : String → Except GoErr (List String) := fun _ => .ok []

/-- Witness for C10: an error that both wraps `ErrorSkip` and carries
the same message still aborts the traversal. -/
theorem skip_recognized_only_by_identity_witness :
    GoErr.wrapped "skip this dep" GoErr.errorSkip ≠ GoErr.errorSkip ∧
    c10Handle "P" = some (GoErr.wrapped "skip this dep" GoErr.errorSkip) ∧
    traverseLoop c10Handle c10Read "P" 4 ["P"] [] =
      { handled := ["P"], reads := []
        outcome := .err (GoErr.wrapped "skip this dep" GoErr.errorSkip) } :=
  ⟨by decide, rfl,
    skip_recognized_only_by_identity c10Handle c10Read "P" "P"
      (GoErr.wrapped "skip this dep" GoErr.errorSkip) (by decide) rfl 3 [] []⟩

/-! ## Theorems about the snapshot driver -/

/-- A snapshot context whose package-name derivation always fails. -/
def c2Ctx : SaverCtx :=
  { gopath := "/go", root := "/go/src/proj"
    packageName := fun _ => .error (GoErr.mk "not in gopath")
    stat := fun _ => .ok true
    read := fun _ => ([], none) }

/-- C2 counterexample: when the import path cannot be derived,
`SavePackageDeps` does not record a placeholder and does not return the
skip signal — it returns a plain error (which aborts the traversal) and
leaves the accumulated dependencies untouched. -/
theorem savePackageDeps_name_failure_counterexample :
    SavePackageDeps c2Ctx [] "relative/pkg" =
      (some (GoErr.mk "Error getting package name for path relative/pkg"), []) ∧
    (SavePackageDeps c2Ctx [] "relative/pkg").1 ≠ some GoErr.errorSkip ∧
    (SavePackageDeps c2Ctx [] "relative/pkg").2 = [] := by
  decide

/-- C2 amended: for every path whose import path cannot be derived,
`SavePackageDeps` records nothing and returns a non-skip error naming
the path, so the traversal aborts; the record-placeholder-and-skip
behaviour belongs to stat failures, not to name-derivation failures. -/
theorem savePackageDeps_name_failure_aborts (ds : SaverCtx)
    (deps : Dependencies) (path : String) (e : GoErr)
    (h : ds.packageName path = .error e) :
    SavePackageDeps ds deps path =
      (some (GoErr.mk ("Error getting package name for path " ++ path)), deps) := by
  simp only [SavePackageDeps, h]

/-- Witness for the amended C2 at a concrete input. -/
theorem savePackageDeps_name_failure_aborts_witness :
    SavePackageDeps c2Ctx [] "relative/pkg" =
      (some (GoErr.mk "Error getting package name for path relative/pkg"), []) :=
  savePackageDeps_name_failure_aborts c2Ctx [] "relative/pkg"
    (GoErr.mk "not in gopath") rfl

/-- C6: when the package reader yields zero dependencies together with
an error, `SavePackageDeps` never aborts: a "no buildable Go"
`PackageError` records nothing and returns nil, and any other error
records a placeholder whose `Err` wraps the reader error and still
returns nil. -/
theorem savePackageDeps_read_error_policy (ds : SaverCtx)
    (deps : Dependencies) (path pkg : String) (e : GoErr)
    (hname : ds.packageName path = .ok pkg)
    (hstat : ds.stat path = .ok true)
    (hroot : path ≠ PackageSource ds.gopath "")
    (hread : ds.read path = ([], some e)) :
    SavePackageDeps ds deps path =
      (if isNoBuildableErr e then (none, deps)
       else (none, AddDependency deps { NewDependency pkg with
         Err := some (GoErr.mk ("cant read deps for package " ++ pkg
           ++ " " ++ e.errString)) })) := by
  simp only [SavePackageDeps, hname, hstat, hread]
  rw [if_neg hroot]

/-- A snapshot context whose reader reports a "no buildable Go" package
error with zero dependencies. -/
def c6CtxA : SaverCtx :=
  { gopath := "/go", root := "/go/src/proj"
    packageName := fun _ => .ok "proj/empty"
    stat := fun _ => .ok true
    read := fun _ => ([], some (GoErr.pkgErr "no buildable Go source files")) }

/-- A snapshot context whose reader fails with an ordinary error and
zero dependencies. -/
def c6CtxB : SaverCtx :=
  { gopath := "/go", root := "/go/src/proj"
    packageName := fun _ => .ok "proj/broken"
    stat := fun _ => .ok true
    read := fun _ => ([], some (GoErr.mk "permission denied")) }

/-- Witness for C6: the no-buildable case records nothing, the other
case records exactly the placeholder, and both return nil. -/
theorem savePackageDeps_read_error_policy_witness :
    SavePackageDeps c6CtxA [] "/go/src/proj/empty" = (none, []) ∧
    SavePackageDeps c6CtxB [] "/go/src/proj/broken" =
      (none, [{ ImportPath := "proj/broken", Imports := [], ImportedFrom := []
                Err := some (GoErr.mk
                  "cant read deps for package proj/broken permission denied") }]) :=
  ⟨by
    rw [savePackageDeps_read_error_policy c6CtxA [] "/go/src/proj/empty"
      "proj/empty" (GoErr.pkgErr "no buildable Go source files") rfl rfl
      (by decide) rfl]
    decide,
   by
    rw [savePackageDeps_read_error_policy c6CtxB [] "/go/src/proj/broken"
      "proj/broken" (GoErr.mk "permission denied") rfl rfl (by decide) rfl]
    decide⟩

/-! ## Theorems about the fetch/update driver -/

/-- C9: when stat-ing the on-disk path fails with an error that is
neither nil nor does-not-exist, `FetchUpdatePackage` discards the error
value it builds for that failure, treats the package as already on disk
(no fetch is attempted), and proceeds directly to reading the package's
deps at that path — exactly as it would for an existing directory. -/
theorem fetchUpdate_stat_error_discarded (dl : LoaderCtx)
    (deps : Dependencies) (pkg m : String)
    (h : dl.stat (PackageSource dl.gopath pkg) = .errOther m) :
    FetchUpdatePackage dl deps pkg =
      loadPackageDeps dl deps pkg (PackageSource dl.gopath pkg) false ∧
    (FetchUpdatePackage dl deps pkg).fetched = false := by
  have heq : FetchUpdatePackage dl deps pkg =
      loadPackageDeps dl deps pkg (PackageSource dl.gopath pkg) false := by
    simp only [FetchUpdatePackage, h]
  refine ⟨heq, ?_⟩
  rw [heq]
  unfold loadPackageDeps
  cases dl.readDeps (PackageSource dl.gopath pkg) <;> rfl

/-- A loader context whose stat fails with a non-not-exist error. -/
def c9Dl : LoaderCtx :=
  { gopath := "/go", cdeps := []
    resolver := fun _ _ => .error (GoErr.mk "resolver should not be called")
    readDeps := fun _ => .ok []
    stat := fun _ => .errOther "permission denied" }

/-- Witness for C9: with a failing stat the driver performs no fetch and
lands in the deps-reading continuation. -/
theorem fetchUpdate_stat_error_discarded_witness :
    c9Dl.stat (PackageSource c9Dl.gopath "example.org/a") =
      .errOther "permission denied" ∧
    FetchUpdatePackage c9Dl [] "example.org/a" =
      loadPackageDeps c9Dl [] "example.org/a"
        (PackageSource c9Dl.gopath "example.org/a") false ∧
    (FetchUpdatePackage c9Dl [] "example.org/a").fetched = false :=
  ⟨rfl,
   (fetchUpdate_stat_error_discarded c9Dl [] "example.org/a"
     "permission denied" rfl).1,
   (fetchUpdate_stat_error_discarded c9Dl [] "example.org/a"
     "permission denied" rfl).2⟩

/-! ## Theorems about the source-consolidation resolver -/

/-- Step equation: a dependency already claimed by an existing source is
merged into that source's `Deps`. -/
theorem resolveSourcesLoop_merge_step (sr : SourcesResolver)
    (dep : Dependency) (rest : List Dependency)
    (sources : List DependencySource) (i : Nat)
    (hidx : depSourceIdx sources dep = some i) :
    resolveSourcesLoop sr (dep :: rest) sources =
      resolveSourcesLoop sr rest (addDepAt sources i dep) := by
  simp only [resolveSourcesLoop, hidx]

/-- Step equation: a `ResolveRepo` failure skips the dependency. -/
theorem resolveSourcesLoop_skip_step (sr : SourcesResolver)
    (dep : Dependency) (rest : List Dependency)
    (sources : List DependencySource) (e : GoErr)
    (hidx : depSourceIdx sources dep = none)
    (hres : sr.Resolver dep.ImportPath = .error e) :
    resolveSourcesLoop sr (dep :: rest) sources =
      resolveSourcesLoop sr rest sources := by
  simp only [resolveSourcesLoop, hidx, hres]

/-- Step equation: a repository whose root is at the save level is
skipped. -/
theorem resolveSourcesLoop_save_level_step (sr : SourcesResolver)
    (dep : Dependency) (rest : List Dependency)
    (sources : List DependencySource) (vcs : VCS)
    (hidx : depSourceIdx sources dep = none)
    (hres : sr.Resolver dep.ImportPath = .ok vcs)
    (hsl : atSaveLevel sr vcs.GetRoot = true) :
    resolveSourcesLoop sr (dep :: rest) sources =
      resolveSourcesLoop sr rest sources := by
  simp only [resolveSourcesLoop, hidx, hres, hsl, if_true]

/-- Step equation: a failing revision query on a new repository aborts
the whole pass with a wrapped error. -/
theorem resolveSourcesLoop_rev_fatal (sr : SourcesResolver)
    (dep : Dependency) (rest : List Dependency)
    (sources : List DependencySource) (vcs : VCS) (e : GoErr)
    (hidx : depSourceIdx sources dep = none)
    (hres : sr.Resolver dep.ImportPath = .ok vcs)
    (hsl : atSaveLevel sr vcs.GetRoot = false)
    (hrev : vcsRevision sr vcs = .error e) :
    resolveSourcesLoop sr (dep :: rest) sources =
      .error (GoErr.mk ("cant get revision from vcs at " ++ vcs.GetRoot
        ++ " " ++ e.errString)) := by
  simp only [resolveSourcesLoop, hidx, hres, hsl, hrev, Bool.false_eq_true,
    if_false]

/-- Step equation: a failing remote-source query on a new repository
aborts the whole pass with a wrapped error. -/
theorem resolveSourcesLoop_source_fatal (sr : SourcesResolver)
    (dep : Dependency) (rest : List Dependency)
    (sources : List DependencySource) (vcs : VCS) (rev : String) (e : GoErr)
    (hidx : depSourceIdx sources dep = none)
    (hres : sr.Resolver dep.ImportPath = .ok vcs)
    (hsl : atSaveLevel sr vcs.GetRoot = false)
    (hrev : vcsRevision sr vcs = .ok rev)
    (hsrc : vcs.GetSource = .error e) :
    resolveSourcesLoop sr (dep :: rest) sources =
      .error (GoErr.mk ("cant get vcs source from vcs at " ++ vcs.GetRoot
        ++ " " ++ e.errString)) := by
  simp only [resolveSourcesLoop, hidx, hres, hsl, hrev, hsrc,
    Bool.false_eq_true, if_false]

/-- Step equation: a new repository outside the save level becomes a new
source carrying the revision, the remote source and the dependency. -/
theorem resolveSourcesLoop_new_source_step (sr : SourcesResolver)
    (dep : Dependency) (rest : List Dependency)
    (sources : List DependencySource) (vcs : VCS) (rev vcsSource : String)
    (hidx : depSourceIdx sources dep = none)
    (hres : sr.Resolver dep.ImportPath = .ok vcs)
    (hsl : atSaveLevel sr vcs.GetRoot = false)
    (hrev : vcsRevision sr vcs = .ok rev)
    (hsrc : vcs.GetSource = .ok vcsSource) :
    resolveSourcesLoop sr (dep :: rest) sources =
      resolveSourcesLoop sr rest (sources ++
        [{ Revisions := [rev], OnDiskRevision := rev, Sources := [vcsSource]
           OnDiskSource := vcsSource, Deps := [dep], Root := vcs.GetRoot
           Err := none }]) := by
  simp only [resolveSourcesLoop, hidx, hres, hsl, hrev, hsrc,
    Bool.false_eq_true, if_false]
  rfl

/-- Membership in `addDepAt` only reuses roots already present. -/
theorem addDepAt_mem_root (sources : List DependencySource) (i : Nat)
    (dep : Dependency) (s : DependencySource)
    (hs : s ∈ addDepAt sources i dep) :
    ∃ t ∈ sources, s.Root = t.Root := by
  unfold addDepAt at hs
  cases hg : sources.get? i with
  | none => rw [hg] at hs; exact ⟨s, hs, rfl⟩
  | some t =>
    rw [hg] at hs
    rcases List.mem_or_eq_of_mem_set hs with h1 | h1
    · exact ⟨s, h1, rfl⟩
    · exact ⟨t, List.get?_mem hg, by rw [h1]⟩

/-- Invariant: if every accumulated source lies outside the save level,
so does every source of a successful loop result. -/
theorem resolveSourcesLoop_outside (sr : SourcesResolver) :
    ∀ (deps : List Dependency) (acc out : List DependencySource),
      (∀ s ∈ acc, atSaveLevel sr s.Root = false) →
      resolveSourcesLoop sr deps acc = .ok out →
      ∀ s ∈ out, atSaveLevel sr s.Root = false := by
  intro deps
  induction deps with
  | nil =>
    intro acc out hacc h
    simp only [resolveSourcesLoop] at h
    cases h
    exact hacc
  | cons dep rest ih =>
    intro acc out hacc h
    cases hidx : depSourceIdx acc dep with
    | some i =>
      rw [resolveSourcesLoop_merge_step sr dep rest acc i hidx] at h
      refine ih _ _ ?_ h
      intro s hs
      obtain ⟨t, ht, hroot⟩ := addDepAt_mem_root acc i dep s hs
      rw [hroot]
      exact hacc t ht
    | none =>
      cases hres : sr.Resolver dep.ImportPath with
      | error e =>
        rw [resolveSourcesLoop_skip_step sr dep rest acc e hidx hres] at h
        exact ih _ _ hacc h
      | ok vcs =>
        cases hsl : atSaveLevel sr vcs.GetRoot with
        | true =>
          rw [resolveSourcesLoop_save_level_step sr dep rest acc vcs hidx
            hres hsl] at h
          exact ih _ _ hacc h
        | false =>
          cases hrev : vcsRevision sr vcs with
          | error e =>
            rw [resolveSourcesLoop_rev_fatal sr dep rest acc vcs e hidx hres
              hsl hrev] at h
            cases h
          | ok rev =>
            cases hsrc : vcs.GetSource with
            | error e =>
              rw [resolveSourcesLoop_source_fatal sr dep rest acc vcs rev e
                hidx hres hsl hrev hsrc] at h
              cases h
            | ok vcsSource =>
              rw [resolveSourcesLoop_new_source_step sr dep rest acc vcs rev
                vcsSource hidx hres hsl hrev hsrc] at h
              refine ih _ _ ?_ h
              intro s hs
              rcases List.mem_append.mp hs with h1 | h1
              · exact hacc s h1
              · rw [List.mem_singleton.mp h1]
                exact hsl

/-- C4: no source produced by `ResolveSources` has a repository root
whose on-disk location equals or contains the project's own save root:
every source in a successful result fails the save-level check, because
a dependency whose resolved root maps to the save root or an ancestor of
it is skipped and contributes no source entry. -/
theorem resolveSources_never_project_root (sr : SourcesResolver)
    (deps : List Dependency) (sources : List DependencySource)
    (h : ResolveSources sr deps = .ok sources) :
    ∀ source ∈ sources, atSaveLevel sr source.Root = false :=
  resolveSourcesLoop_outside sr deps [] sources (by simp) h

/-- The VCS fixture for the resolver scenarios: every import path
resolves to the repository `example.org/repo`, at revision `abc123`. -/
def cVcs : VCS :=
  { GetRoot := "example.org/repo", GetBranch := .error (GoErr.mk "no branch")
    GetRev := .ok "abc123", GetSource := .ok "git@example.org:repo"
    Create := none }

def cSr : SourcesResolver :=
  { RootPath := "/go/src/proj", Gopath := "/go"
    Resolver := fun _ => .ok cVcs, Branches := false }

def cDep1 : Dependency :=
  { ImportPath := "example.org/repo/sub1", Imports := [], ImportedFrom := []
    Err := none }

def cDep2 : Dependency :=
  { ImportPath := "example.org/repo/sub2", Imports := [], ImportedFrom := []
    Err := none }

/-- The single source produced for `cDep1` by `cSr`. -/
def cSrc1 : DependencySource :=
  { Revisions := ["abc123"], OnDiskRevision := "abc123"
    Sources := ["git@example.org:repo"]
    OnDiskSource := "git@example.org:repo", Deps := [cDep1]
    Root := "example.org/repo", Err := none }

/-- Witness for C4 at a concrete input: the one source resolved for
`cDep1` lies outside the project save level. -/
theorem resolveSources_never_project_root_witness :
    atSaveLevel cSr cSrc1.Root = false :=
  resolveSources_never_project_root cSr [cDep1] [cSrc1] rfl cSrc1
    (List.mem_singleton.mpr rfl)

/-- C5: a graph of two dependencies under the same repository root
(outside the save level) resolves to exactly one source, rooted at that
repository root, whose `Deps` contains both dependencies. -/
theorem resolveSources_merges_same_root (sr : SourcesResolver)
    (d1 d2 : Dependency) (vcs : VCS) (rev vcsSource : String)
    (hres : sr.Resolver d1.ImportPath = .ok vcs)
    (hsl : atSaveLevel sr vcs.GetRoot = false)
    (hrev : vcsRevision sr vcs = .ok rev)
    (hsrc : vcs.GetSource = .ok vcsSource)
    (hchild1 : (vcs.GetRoot == d1.ImportPath
      || PathIsChild vcs.GetRoot d1.ImportPath) = true)
    (hchild2 : (vcs.GetRoot == d2.ImportPath
      || PathIsChild vcs.GetRoot d2.ImportPath) = true)
    (hne : d1.ImportPath ≠ d2.ImportPath) :
    ResolveSources sr [d1, d2] =
      .ok [{ Revisions := [rev], OnDiskRevision := rev, Sources := [vcsSource]
             OnDiskSource := vcsSource, Deps := [d1, d2], Root := vcs.GetRoot
             Err := none }] ∧
    depLookup [d1, d2] d1.ImportPath = some d1 ∧
    depLookup [d1, d2] d2.ImportPath = some d2 := by
  have hbe : (d1.ImportPath == d2.ImportPath) = false :=
    beq_eq_false_iff_ne.mpr hne
  refine ⟨?_, ?_, ?_⟩
  · rw [ResolveSources,
      resolveSourcesLoop_new_source_step sr d1 [d2] [] vcs rev vcsSource rfl
        hres hsl hrev hsrc,
      resolveSourcesLoop_merge_step sr d2 [] _ 0
        (by simp [depSourceIdx, depSourceIdxGo, hchild2])]
    simp only [addDepAt, List.nil_append, List.get?, List.set]
    simp only [resolveSourcesLoop, AddDependency, depLookup, List.find?, hbe]
    rfl
  · simp [depLookup, List.find?]
  · simp [depLookup, List.find?, hbe]

/-- Witness for C5: scenario 4 of the spec — `example.org/repo/sub1` and
`example.org/repo/sub2` both under root `example.org/repo` yield one
source with both deps and one revision. -/
theorem resolveSources_merges_same_root_witness :
    ResolveSources cSr [cDep1, cDep2] =
      .ok [{ Revisions := ["abc123"], OnDiskRevision := "abc123"
             Sources := ["git@example.org:repo"]
             OnDiskSource := "git@example.org:repo", Deps := [cDep1, cDep2]
             Root := "example.org/repo", Err := none }] ∧
    depLookup [cDep1, cDep2] cDep1.ImportPath = some cDep1 ∧
    depLookup [cDep1, cDep2] cDep2.ImportPath = some cDep2 :=
  resolveSources_merges_same_root cSr cDep1 cDep2 cVcs "abc123"
    "git@example.org:repo" rfl rfl rfl rfl (by decide) (by decide) (by decide)

/-- C8: resolving which repository owns a dependency may fail without
aborting — the dependency is skipped and iteration continues — whereas,
for a newly discovered repository, a failing exact-revision query or a
failing remote-source query aborts the whole pass with a wrapped error,
returning no sources. -/
theorem resolveSources_error_policy (sr : SourcesResolver)
    (dep : Dependency) (rest : List Dependency)
    (sources : List DependencySource)
    (hidx : depSourceIdx sources dep = none) :
    (∀ e, sr.Resolver dep.ImportPath = .error e →
      resolveSourcesLoop sr (dep :: rest) sources =
        resolveSourcesLoop sr rest sources) ∧
    (∀ vcs e, sr.Resolver dep.ImportPath = .ok vcs →
      atSaveLevel sr vcs.GetRoot = false →
      vcsRevision sr vcs = .error e →
      resolveSourcesLoop sr (dep :: rest) sources =
        .error (GoErr.mk ("cant get revision from vcs at " ++ vcs.GetRoot
          ++ " " ++ e.errString))) ∧
    (∀ vcs rev e, sr.Resolver dep.ImportPath = .ok vcs →
      atSaveLevel sr vcs.GetRoot = false →
      vcsRevision sr vcs = .ok rev →
      vcs.GetSource = .error e →
      resolveSourcesLoop sr (dep :: rest) sources =
        .error (GoErr.mk ("cant get vcs source from vcs at " ++ vcs.GetRoot
          ++ " " ++ e.errString))) :=
  ⟨fun e hres => resolveSourcesLoop_skip_step sr dep rest sources e hidx hres,
   fun vcs e hres hsl hrev =>
     resolveSourcesLoop_rev_fatal sr dep rest sources vcs e hidx hres hsl hrev,
   fun vcs rev e hres hsl hrev hsrc =>
     resolveSourcesLoop_source_fatal sr dep rest sources vcs rev e hidx hres
       hsl hrev hsrc⟩

/-- A VCS fixture whose revision query fails. -/
def c8Vcs : VCS :=
  { GetRoot := "example.org/repo2", GetBranch := .error (GoErr.mk "no branch")
    GetRev := .error (GoErr.mk "no revision")
    GetSource := .ok "git@example.org:repo2", Create := none }

/-- A resolver fixture that cannot resolve `example.org/bad` and yields
the revisionless repository for everything else. -/
def c8Sr : SourcesResolver :=
  { RootPath := "/go/src/proj", Gopath := "/go"
    Resolver := fun ip =>
      if ip == "example.org/bad" then .error (GoErr.mk "unknown vcs")
      else .ok c8Vcs
    Branches := false }

def c8DepBad : Dependency :=
  { ImportPath := "example.org/bad", Imports := [], ImportedFrom := []
    Err := none }

def c8DepNoRev : Dependency :=
  { ImportPath := "example.org/repo2/pkg", Imports := [], ImportedFrom := []
    Err := none }

/-- Witness for C8: the unresolvable dependency is skipped (the pass
completes with no sources), while a revisionless repository aborts the
pass with the wrapped error. -/
theorem resolveSources_error_policy_witness :
    resolveSourcesLoop c8Sr [c8DepBad] [] = .ok [] ∧
    resolveSourcesLoop c8Sr [c8DepNoRev] [] =
      .error (GoErr.mk
        "cant get revision from vcs at example.org/repo2 no revision") :=
  ⟨(resolveSources_error_policy c8Sr c8DepBad [] [] rfl).1
      (GoErr.mk "unknown vcs") rfl,
   (resolveSources_error_policy c8Sr c8DepNoRev [] [] rfl).2.1 c8Vcs
      (GoErr.mk "no revision") rfl rfl rfl⟩

end Canticles
